import Mathlib

/-!
Verification of the thin-lens optics visualizer (`sit-dia/optics`).

The panel-level computations (`src/optics-math.ts` thin-lens part and the
`ThinLensPanel.render` derivation in `src/panels/thin-lens.ts`) are embedded
over exact rational arithmetic `ℚ`: every arithmetic operation performed by
the source is a field operation on finite values, so the embedding is exact
wherever the source stays away from division by zero (tracked explicitly in
the theorems).  The HMD formula module `calcHMDOptics` uses `Math.atan` and
`Math.PI`, so it is embedded over `ℝ` with `Real.arctan`.
-/

namespace Optics

/-! ## optics-math.ts -/

/-- `imageDistance(f, doDistance) = 1 / (1 / f - 1 / doDistance)`. -/
def imageDistance (f doDistance : ℚ) : ℚ :=
  1 / (1 / f - 1 / doDistance)

/-- `magnification(di, doDistance) = -di / doDistance`. -/
def magnification (di doDistance : ℚ) : ℚ :=
  -di / doDistance

/-- `hmdMagnification(f, doDistance) = f / (f - doDistance)`. -/
def hmdMagnification (f doDistance : ℚ) : ℚ :=
  f / (f - doDistance)

/-- Result type of `imageType`: `'real' | 'virtual' | 'infinity'`. -/
inductive ImageType where
  | real
  | virtual
  | infinity
deriving DecidableEq

/-- `imageType(di)`: the source first returns `'infinity'` when `di` is not a
finite number (impossible over `ℚ`, where every value is finite), then when
`|di| > 1e6`, otherwise `'real'` for `di > 0` and `'virtual'` otherwise. -/
def imageType (di : ℚ) : ImageType :=
  if |di| > 1000000 then ImageType.infinity
  else if di > 0 then ImageType.real
  else ImageType.virtual

/-! ## ThinLensPanel.render derivation (src/panels/thin-lens.ts)

The render body is a chain of `const`/`let` computations from the two slider
values `f` and `doDistance` plus the canvas pixel size; each definition below
names one of those intermediate constants. -/

/-- `const objectHeight = 40`. -/
def objectHeight : ℚ := 40

/-- `const displayHalfH = 50`. -/
def displayHalfH : ℚ := 50

/-- `const diRaw = imageDistance(f, doDistance)`. -/
def diRaw (f doDistance : ℚ) : ℚ := imageDistance f doDistance

/-- `const nearInfinityThreshold = Math.max(3, f * 0.05)`. -/
def nearInfinityThreshold (f : ℚ) : ℚ := max 3 (f * 0.05)

/-- `const nearInfinity = Math.abs(doDistance - f) < nearInfinityThreshold`. -/
def nearInfinity (f doDistance : ℚ) : Bool :=
  decide (|doDistance - f| < nearInfinityThreshold f)

/-- `const imgType = nearInfinity ? 'infinity' : imageType(di)` (with
`di = diRaw` when `nearInfinity` is false). -/
def imgType (f doDistance : ℚ) : ImageType :=
  if nearInfinity f doDistance then ImageType.infinity
  else imageType (diRaw f doDistance)

/-- `const mag = magnification(diRaw, doDistance)`. -/
def mag (f doDistance : ℚ) : ℚ := magnification (diRaw f doDistance) doDistance

/-- `const regimeText = imgType === 'infinity' ? 'At focal point'
: doDistance < f ? 'HMD (virtual image)' : 'Projector (real image)'`. -/
def regimeText (f doDistance : ℚ) : String :=
  if imgType f doDistance = ImageType.infinity then "At focal point"
  else if doDistance < f then "HMD (virtual image)"
  else "Projector (real image)"

/-- `const eyeWorldX = doDistance < f ? Math.max(80, f * 0.6) : 60`. -/
def eyeWorldX (f doDistance : ℚ) : ℚ :=
  if doDistance < f then max 80 (f * 0.6) else 60

/-- `const maxYAtLens = objectHeight * 5`. -/
def maxYAtLens : ℚ := objectHeight * 5

/-- `ray3YAtLens`: starts at the fallback `tipWorld.y`; when
`imgType !== 'infinity'` and `Math.abs(denom) > 0.01` it is set to
`tipWorld.y + slope3 * (0 - tipWorld.x)` and then clamped to
`[-maxYAtLens, maxYAtLens]` via `Math.max(-maxYAtLens, Math.min(maxYAtLens, _))`,
with `denom = -f - tipWorld.x` and `slope3 = (0 - tipWorld.y) / denom`. -/
def ray3YAtLens (f doDistance : ℚ) : ℚ :=
  let tipX : ℚ := -doDistance
  let tipY : ℚ := objectHeight
  if imgType f doDistance ≠ ImageType.infinity then
    let denom := -f - tipX
    if |denom| > 0.01 then
      let slope3 := (0 - tipY) / denom
      max (-maxYAtLens) (min maxYAtLens (tipY + slope3 * (0 - tipX)))
    else tipY
  else tipY

/-- `rayYsAtLens`: `[tipWorld.y, 0, tipWorld.y]` in the at-infinity branch,
else `[tipWorld.y, lensWorld.y, ray3YAtLens]`. -/
def rayYsAtLens (f doDistance : ℚ) : List ℚ :=
  if imgType f doDistance = ImageType.infinity then
    [objectHeight, 0, objectHeight]
  else
    [objectHeight, 0, ray3YAtLens f doDistance]

/-- `const maxRayY = Math.max(...rayYsAtLens.map(Math.abs))` (the list always
contains `|objectHeight| = 40`, so folding `max` from `0` agrees with the
JavaScript spread maximum). -/
def maxRayY (f doDistance : ℚ) : ℚ :=
  ((rayYsAtLens f doDistance).map (fun y => |y|)).foldr max 0

/-- `const lensHalfHeight = Math.min(Math.max(maxRayY + 12, 40), 80)`. -/
def lensHalfHeight (f doDistance : ℚ) : ℚ :=
  min (max (maxRayY f doDistance + 12) 40) 80

/-- `const maxDrawMag = 6`. -/
def maxDrawMag : ℚ := 6

/-- `const drawMag = Math.max(-maxDrawMag, Math.min(maxDrawMag, mag))`. -/
def drawMag (f doDistance : ℚ) : ℚ :=
  max (-maxDrawMag) (min maxDrawMag (mag f doDistance))

/-- `const drawImageHeight = objectHeight * drawMag`. -/
def drawImageHeight (f doDistance : ℚ) : ℚ :=
  objectHeight * drawMag f doDistance

/-- `const sceneHalfY = Math.max(displayHalfH + 20, lensHalfHeight + 10,
objectHeight + 20, 80)`. -/
def sceneHalfY (f doDistance : ℚ) : ℚ :=
  max (displayHalfH + 20)
    (max (lensHalfHeight f doDistance + 10) (max (objectHeight + 20) 80))

/-- `const anchorMinX = -doDistance - 40`. -/
def anchorMinX (doDistance : ℚ) : ℚ := -doDistance - 40

/-- `const anchorMaxX = Math.max(eyeWorldX + 40, f + 20)`. -/
def anchorMaxX (f doDistance : ℚ) : ℚ :=
  max (eyeWorldX f doDistance + 40) (f + 20)

/-- `let effectiveMinX = Math.min(anchorMinX, -f - 10)`. -/
def effectiveMinX (f doDistance : ℚ) : ℚ :=
  min (anchorMinX doDistance) (-f - 10)

/-- `let effectiveMaxX = Math.max(anchorMaxX, f + 10)`. -/
def effectiveMaxX (f doDistance : ℚ) : ℚ :=
  max (anchorMaxX f doDistance) (f + 10)

/-- `const worldW = worldMaxX - worldMinX` before padding (the initial
`worldMinX/worldMaxX` are `effectiveMinX/effectiveMaxX`). -/
def worldW0 (f doDistance : ℚ) : ℚ :=
  effectiveMaxX f doDistance - effectiveMinX f doDistance

/-- `const worldH = worldMaxY - worldMinY` before padding (the initial
`worldMinY/worldMaxY` are `-sceneHalfY/sceneHalfY`). -/
def worldH0 (f doDistance : ℚ) : ℚ :=
  sceneHalfY f doDistance - -sceneHalfY f doDistance

/-- `worldMinX -= worldW * padFractionX` with `padFractionX = 0.08`. -/
def worldMinX1 (f doDistance : ℚ) : ℚ :=
  effectiveMinX f doDistance - worldW0 f doDistance * 0.08

/-- `worldMaxX += worldW * padFractionX`. -/
def worldMaxX1 (f doDistance : ℚ) : ℚ :=
  effectiveMaxX f doDistance + worldW0 f doDistance * 0.08

/-- `worldMinY -= worldH * padFractionY` with `padFractionY = 0.12`. -/
def worldMinY1 (f doDistance : ℚ) : ℚ :=
  -sceneHalfY f doDistance - worldH0 f doDistance * 0.12

/-- `worldMaxY += worldH * padFractionY`. -/
def worldMaxY1 (f doDistance : ℚ) : ℚ :=
  sceneHalfY f doDistance + worldH0 f doDistance * 0.12

/-- `const currentW = worldMaxX - worldMinX` after padding. -/
def currentW (f doDistance : ℚ) : ℚ :=
  worldMaxX1 f doDistance - worldMinX1 f doDistance

/-- `const currentH = worldMaxY - worldMinY` after padding. -/
def currentH (f doDistance : ℚ) : ℚ :=
  worldMaxY1 f doDistance - worldMinY1 f doDistance

/-- Minimum-size step for `worldMinX`: when `currentW < minWorldW` (300) both
x-bounds move outward by `(minWorldW - currentW) / 2`. -/
def worldMinX2 (f doDistance : ℚ) : ℚ :=
  if currentW f doDistance < 300 then
    worldMinX1 f doDistance - (300 - currentW f doDistance) / 2
  else worldMinX1 f doDistance

/-- Minimum-size step for `worldMaxX`. -/
def worldMaxX2 (f doDistance : ℚ) : ℚ :=
  if currentW f doDistance < 300 then
    worldMaxX1 f doDistance + (300 - currentW f doDistance) / 2
  else worldMaxX1 f doDistance

/-- Minimum-size step for `worldMinY` with `minWorldH = 180`. -/
def worldMinY2 (f doDistance : ℚ) : ℚ :=
  if currentH f doDistance < 180 then
    worldMinY1 f doDistance - (180 - currentH f doDistance) / 2
  else worldMinY1 f doDistance

/-- Minimum-size step for `worldMaxY`. -/
def worldMaxY2 (f doDistance : ℚ) : ℚ :=
  if currentH f doDistance < 180 then
    worldMaxY1 f doDistance + (180 - currentH f doDistance) / 2
  else worldMaxY1 f doDistance

/-- World-space viewport `{xMin, xMax, yMin, yMax}`. -/
structure Viewport where
  xMin : ℚ
  xMax : ℚ
  yMin : ℚ
  yMax : ℚ
deriving DecidableEq

/-- Aspect-ratio step and final viewport: with
`canvasAspect = width / height` and
`worldAspect = (worldMaxX - worldMinX) / (worldMaxY - worldMinY)`, if
`worldAspect > canvasAspect` the y-range is expanded to
`targetH = (worldMaxX - worldMinX) / canvasAspect`, else the x-range is
expanded to `targetW = (worldMaxY - worldMinY) * canvasAspect`.  The render
never uses the image distance `diRaw` anywhere in this derivation: the bounds
are functions of `(f, doDistance, width, height)` alone. -/
def viewportBounds (f doDistance width height : ℚ) : Viewport :=
  let canvasAspect := width / height
  let wX := worldMaxX2 f doDistance - worldMinX2 f doDistance
  let wY := worldMaxY2 f doDistance - worldMinY2 f doDistance
  let worldAspect := wX / wY
  if worldAspect > canvasAspect then
    let targetH := wX / canvasAspect
    let expandY := (targetH - wY) / 2
    ⟨worldMinX2 f doDistance, worldMaxX2 f doDistance,
      worldMinY2 f doDistance - expandY, worldMaxY2 f doDistance + expandY⟩
  else
    let targetW := wY * canvasAspect
    let expandX := (targetW - wX) / 2
    ⟨worldMinX2 f doDistance - expandX, worldMaxX2 f doDistance + expandX,
      worldMinY2 f doDistance, worldMaxY2 f doDistance⟩

/-- `const imageOffScreenLeft = imgType === 'virtual' && diRaw < worldMinX`. -/
def imageOffScreenLeft (f doDistance width height : ℚ) : Bool :=
  decide (imgType f doDistance = ImageType.virtual ∧
    diRaw f doDistance < (viewportBounds f doDistance width height).xMin)

/-- `const imageOffScreenRight = imgType === 'real' && diRaw > worldMaxX`. -/
def imageOffScreenRight (f doDistance width height : ℚ) : Bool :=
  decide (imgType f doDistance = ImageType.real ∧
    (viewportBounds f doDistance width height).xMax < diRaw f doDistance)

/-- `const imageOffScreen = imageOffScreenLeft || imageOffScreenRight`. -/
def imageOffScreen (f doDistance width height : ℚ) : Bool :=
  imageOffScreenLeft f doDistance width height ||
    imageOffScreenRight f doDistance width height

/-- `const imageTipY = drawImageHeight`. -/
def imageTipY (f doDistance : ℚ) : ℚ := drawImageHeight f doDistance

/-- `const imageOffScreenTop = imgType !== 'infinity' && !imageOffScreen &&
imageTipY > worldMaxY`. -/
def imageOffScreenTop (f doDistance width height : ℚ) : Bool :=
  decide (imgType f doDistance ≠ ImageType.infinity) &&
    !imageOffScreen f doDistance width height &&
    decide ((viewportBounds f doDistance width height).yMax <
      imageTipY f doDistance)

/-- `const imageOffScreenBottom = imgType !== 'infinity' && !imageOffScreen &&
imageTipY < worldMinY`. -/
def imageOffScreenBottom (f doDistance width height : ℚ) : Bool :=
  decide (imgType f doDistance ≠ ImageType.infinity) &&
    !imageOffScreen f doDistance width height &&
    decide (imageTipY f doDistance <
      (viewportBounds f doDistance width height).yMin)

/-- Which canvas edge a glow is drawn on. -/
inductive Edge where
  | left
  | right
  | top
  | bottom
deriving DecidableEq

/-- An rgb triple as passed to `drawEdgeGlow`. -/
structure RGB where
  r : ℕ
  g : ℕ
  b : ℕ
deriving DecidableEq

/-- `const virtualGlowColor = [168, 85, 247]` (purple). -/
def virtualGlowColor : RGB := ⟨168, 85, 247⟩

/-- `const realGlowColor = [76, 175, 80]` (green). -/
def realGlowColor : RGB := ⟨76, 175, 80⟩

/-- One edge-glow draw: the edge, its color, and the millimetre distance shown
in the accompanying `drawEdgeLabel` text (`none` when no label is drawn; the
`toFixed(0)` string formatting is not modelled, the exact distance is kept). -/
structure GlowCmd where
  edge : Edge
  color : RGB
  labelDist : Option ℚ
deriving DecidableEq

/-- The edge-glow draws of one frame, in source order: everything is inside
`if (imgType !== 'infinity')`; the left glow uses `virtualGlowColor` and a
label showing `Math.abs(diRaw)`, the right glow uses `realGlowColor` and a
label showing `diRaw`; top and bottom glows use the regime color
(`doDistance < f` picks the virtual color) and have no distance label. -/
def glowCmds (f doDistance width height : ℚ) : List GlowCmd :=
  if imgType f doDistance ≠ ImageType.infinity then
    (if imageOffScreenLeft f doDistance width height then
      [⟨Edge.left, virtualGlowColor, some |diRaw f doDistance|⟩] else []) ++
    (if imageOffScreenRight f doDistance width height then
      [⟨Edge.right, realGlowColor, some (diRaw f doDistance)⟩] else []) ++
    (if imageOffScreenTop f doDistance width height then
      [⟨Edge.top,
        if doDistance < f then virtualGlowColor else realGlowColor, none⟩]
     else []) ++
    (if imageOffScreenBottom f doDistance width height then
      [⟨Edge.bottom,
        if doDistance < f then virtualGlowColor else realGlowColor, none⟩]
     else [])
  else []

/-! ## LabelPlacer (src/panels/thin-lens.ts) -/

/-- A placed label bounding box `{x, y, w, h}` (top-left corner + size). -/
structure LabelRect where
  x : ℚ
  y : ℚ
  w : ℚ
  h : ℚ
deriving DecidableEq

/-- One recorded displacement `{origX, origY, finalX, finalY}`. -/
structure Displacement where
  origX : ℚ
  origY : ℚ
  finalX : ℚ
  finalY : ℚ
deriving DecidableEq

/-- The placer's per-frame mutable state: `placed` boxes and recorded
`displacements`. -/
structure PlacerState where
  placed : List LabelRect
  displacements : List Displacement
deriving DecidableEq

/-- The state at the start of a frame (`new LabelPlacer()`). -/
def PlacerState.empty : PlacerState := ⟨[], []⟩

/-- The fixed ordered candidate-shift list `shifts` of `LabelPlacer.place`. -/
def shiftList (w h : ℚ) : List (ℚ × ℚ) :=
  [(0, 0), (0, -h - 2), (0, h + 2),
   (-w - 4, 0), (w + 4, 0),
   (0, -h * 2 - 4), (0, h * 2 + 4),
   (-w - 4, -h - 2), (w + 4, -h - 2),
   (-w * 2 - 8, 0), (w * 2 + 8, 0),
   (0, -h * 3 - 6), (0, h * 3 + 6)]

/-- The overlap test of the inner loop:
`cx < p.x + p.w && cx + w > p.x && cy < p.y + p.h && cy + h > p.y`. -/
def rectsOverlap (cx cy w h : ℚ) (p : LabelRect) : Bool :=
  decide (cx < p.x + p.w ∧ p.x < cx + w ∧ cy < p.y + p.h ∧ p.y < cy + h)

/-- `LabelPlacer.place(x, y, w, h)`: tries the candidate shifts in order and
keeps the first whose box overlaps no previously placed box; when every
candidate collides, `bestX/bestY` keep the original candidate position and
`displaced` stays false.  Pushes the chosen box onto `placed`, records a
displacement when a non-zero shift won, and returns the adjusted centre. -/
def place (st : PlacerState) (x y w h : ℚ) : PlacerState × ℚ × ℚ :=
  let candX := x - w / 2
  let candY := y - h / 2
  let free := (shiftList w h).find? fun s =>
    !(st.placed.any fun p => rectsOverlap (candX + s.1) (candY + s.2) w h p)
  match free with
  | some (dx, dy) =>
      let bestX := candX + dx
      let bestY := candY + dy
      let displaced := decide (dx ≠ 0 ∨ dy ≠ 0)
      let finalX := bestX + w / 2
      let finalY := bestY + h / 2
      (⟨st.placed ++ [⟨bestX, bestY, w, h⟩],
        if displaced then st.displacements ++ [⟨x, y, finalX, finalY⟩]
        else st.displacements⟩,
       finalX, finalY)
  | none =>
      (⟨st.placed ++ [⟨candX, candY, w, h⟩], st.displacements⟩,
       candX + w / 2, candY + h / 2)

/-- `drawLeaderLines` draws a dashed line (plus an anchor dot) for each
recorded displacement whose distance `Math.hypot(finalX - origX,
finalY - origY)` exceeds 8; the squared comparison below is equivalent. -/
def leaderLines (st : PlacerState) : List Displacement :=
  st.displacements.filter fun d =>
    decide (64 < (d.finalX - d.origX) ^ 2 + (d.finalY - d.origY) ^ 2)

/-! ## calcHMDOptics (src/optics-math.ts, over `ℝ`) -/

/-- `HMDParams` input record. -/
structure HMDParams where
  f : ℝ
  distLens2Display : ℝ
  eyeRelief : ℝ
  ipd : ℝ
  displayWidth : ℝ
  displayHeight : ℝ

/-- `HMDCalculated` output record. -/
structure HMDCalculated where
  distEye2Display : ℝ
  magnification : ℝ
  imgHeight : ℝ
  distLens2Img : ℝ
  distEye2Img : ℝ
  near : ℝ
  fovVertical : ℝ
  fovHNasal : ℝ
  fovHTemporal : ℝ
  fovHorizontal : ℝ
  top : ℝ
  bottom : ℝ
  imgWidthNasal : ℝ
  imgWidthTemporal : ℝ
  leftForLeftEye : ℝ
  rightForLeftEye : ℝ
  leftForRightEye : ℝ
  rightForRightEye : ℝ

/-- `const RAD_TO_DEG = 180 / Math.PI`. -/
noncomputable def radToDeg : ℝ := 180 / Real.pi

/-- `calcHMDOptics(params)`: closed-form HMD magnification, image distances,
field-of-view angles (via `Math.atan`, converted to degrees) and per-eye
frustum extents, translated constant by constant from the source. -/
noncomputable def calcHMDOptics (p : HMDParams) : HMDCalculated :=
  let magnificationValue := p.f / (p.f - p.distLens2Display)
  let distLens2Img := |1 / (1 / p.f - 1 / p.distLens2Display)|
  let distEye2Img := distLens2Img + p.eyeRelief
  let distEye2Display := p.eyeRelief + p.distLens2Display
  let imgHeight := p.displayHeight * magnificationValue
  let fovVertical := 2 * Real.arctan (imgHeight / 2 / distEye2Img) * radToDeg
  let fovHNasal := Real.arctan (magnificationValue * p.ipd / 2 / distEye2Img) * radToDeg
  let fovHTemporal :=
    Real.arctan (magnificationValue * (p.displayWidth - p.ipd) / 2 / distEye2Img) * radToDeg
  let fovHorizontal := fovHNasal + fovHTemporal
  let near := p.eyeRelief + p.distLens2Display
  let top := near * imgHeight / (2 * distEye2Img)
  let bottom := -top
  let imgWidthNasal := magnificationValue * p.ipd / 2
  let imgWidthTemporal := magnificationValue * (p.displayWidth - p.ipd) / 2
  let rightForLeftEye := distEye2Display * imgWidthNasal / distEye2Img
  let leftForLeftEye := -(distEye2Display * imgWidthTemporal) / distEye2Img
  let rightForRightEye := distEye2Display * imgWidthTemporal / distEye2Img
  let leftForRightEye := -(distEye2Display * imgWidthNasal) / distEye2Img
  { distEye2Display := distEye2Display
    magnification := magnificationValue
    imgHeight := imgHeight
    distLens2Img := distLens2Img
    distEye2Img := distEye2Img
    near := near
    fovVertical := fovVertical
    fovHNasal := fovHNasal
    fovHTemporal := fovHTemporal
    fovHorizontal := fovHorizontal
    top := top
    bottom := bottom
    imgWidthNasal := imgWidthNasal
    imgWidthTemporal := imgWidthTemporal
    leftForLeftEye := leftForLeftEye
    rightForLeftEye := rightForLeftEye
    leftForRightEye := leftForRightEye
    rightForRightEye := rightForRightEye }

/-- `DEFAULT_HMD`: Google Cardboard V2 defaults from `src/constants.ts`. -/
noncomputable def DEFAULT_HMD : HMDParams :=
  { f := 0.043
    distLens2Display := 0.042
    eyeRelief := 0.018
    ipd := 0.065
    displayWidth := 0.12096
    displayHeight := 0.068 }

/-! ## Helper lemmas -/

/-- Constructor disequality, used to evaluate branch conditions. -/
theorem ImageType.real_ne_infinity : ImageType.real ≠ ImageType.infinity :=
  fun h => nomatch h

/-- Constructor disequality, used to evaluate branch conditions. -/
theorem ImageType.virtual_ne_infinity : ImageType.virtual ≠ ImageType.infinity :=
  fun h => nomatch h

/-- Constructor disequality, used to evaluate branch conditions. -/
theorem ImageType.real_ne_virtual : ImageType.real ≠ ImageType.virtual :=
  fun h => nomatch h

/-- Constructor disequality, used to evaluate branch conditions. -/
theorem ImageType.infinity_ne_real : ImageType.infinity ≠ ImageType.real :=
  fun h => nomatch h

/-- Constructor disequality, used to evaluate branch conditions. -/
theorem ImageType.infinity_ne_virtual : ImageType.infinity ≠ ImageType.virtual :=
  fun h => nomatch h

/-- Constructor disequality, used to evaluate branch conditions. -/
theorem ImageType.virtual_ne_real : ImageType.virtual ≠ ImageType.real :=
  fun h => nomatch h

/-- Closed form of the thin-lens image distance. -/
theorem imageDistance_closed_form (f d : ℚ) (hf : f ≠ 0) (hd : d ≠ 0)
    (hdf : d ≠ f) : imageDistance f d = f * d / (d - f) := by
  have hsub : d - f ≠ 0 := sub_ne_zero.mpr hdf
  rw [imageDistance]
  rw [show 1 / f - 1 / d = (d - f) / (f * d) by
    rw [div_sub_div 1 1 hf hd, one_mul, mul_one]]
  rw [one_div_div]

/-- Upper Taylor partial-sum bound for `arctan` on `[0, ∞)`: the function
`t ↦ (t - t³/3 + t⁵/5) - arctan t` has derivative `t⁶/(1+t²) ≥ 0` and
vanishes at `0`. -/
theorem arctan_le_taylor5 (t : ℝ) (ht : 0 ≤ t) :
    Real.arctan t ≤ t - t ^ 3 / 3 + t ^ 5 / 5 := by
  have hmono : Monotone
      (fun s : ℝ => s - s ^ 3 / 3 + s ^ 5 / 5 - Real.arctan s) := by
    apply monotone_of_deriv_nonneg
    · apply Differentiable.sub _ Real.differentiable_arctan
      apply Differentiable.add
      · exact differentiable_id.sub ((differentiable_pow 3).div_const 3)
      · exact (differentiable_pow 5).div_const 5
    · intro x
      have hd : HasDerivAt
          (fun s : ℝ => s - s ^ 3 / 3 + s ^ 5 / 5 - Real.arctan s)
          (1 - 3 * x ^ 2 / 3 + 5 * x ^ 4 / 5 - 1 / (1 + x ^ 2)) x := by
        have h1 : HasDerivAt (fun s : ℝ => s) 1 x := hasDerivAt_id x
        have h3 : HasDerivAt (fun s : ℝ => s ^ 3) (3 * x ^ 2) x := by
          simpa using hasDerivAt_pow 3 x
        have h5 : HasDerivAt (fun s : ℝ => s ^ 5) (5 * x ^ 4) x := by
          simpa using hasDerivAt_pow 5 x
        exact ((h1.sub (h3.div_const 3)).add (h5.div_const 5)).sub
          (Real.hasDerivAt_arctan x)
      rw [hd.deriv]
      have hx : (0 : ℝ) < 1 + x ^ 2 := by positivity
      have hEq : 1 - 3 * x ^ 2 / 3 + 5 * x ^ 4 / 5 - 1 / (1 + x ^ 2)
          = x ^ 6 / (1 + x ^ 2) := by
        field_simp
        ring
      rw [hEq]
      positivity
  have h0 := hmono ht
  simp only [Real.arctan_zero] at h0
  norm_num at h0
  linarith

/-- Lower Taylor partial-sum bound for `arctan` on `[0, ∞)`: the function
`t ↦ arctan t - (t - t³/3 + t⁵/5 - t⁷/7)` has derivative `t⁸/(1+t²) ≥ 0` and
vanishes at `0`. -/
theorem taylor7_le_arctan (t : ℝ) (ht : 0 ≤ t) :
    t - t ^ 3 / 3 + t ^ 5 / 5 - t ^ 7 / 7 ≤ Real.arctan t := by
  have hmono : Monotone
      (fun s : ℝ => Real.arctan s - (s - s ^ 3 / 3 + s ^ 5 / 5 - s ^ 7 / 7)) := by
    apply monotone_of_deriv_nonneg
    · apply Real.differentiable_arctan.sub
      apply Differentiable.sub
      · apply Differentiable.add
        · exact differentiable_id.sub ((differentiable_pow 3).div_const 3)
        · exact (differentiable_pow 5).div_const 5
      · exact (differentiable_pow 7).div_const 7
    · intro x
      have hd : HasDerivAt
          (fun s : ℝ => Real.arctan s - (s - s ^ 3 / 3 + s ^ 5 / 5 - s ^ 7 / 7))
          (1 / (1 + x ^ 2) -
            (1 - 3 * x ^ 2 / 3 + 5 * x ^ 4 / 5 - 7 * x ^ 6 / 7)) x := by
        have h1 : HasDerivAt (fun s : ℝ => s) 1 x := hasDerivAt_id x
        have h3 : HasDerivAt (fun s : ℝ => s ^ 3) (3 * x ^ 2) x := by
          simpa using hasDerivAt_pow 3 x
        have h5 : HasDerivAt (fun s : ℝ => s ^ 5) (5 * x ^ 4) x := by
          simpa using hasDerivAt_pow 5 x
        have h7 : HasDerivAt (fun s : ℝ => s ^ 7) (7 * x ^ 6) x := by
          simpa using hasDerivAt_pow 7 x
        exact (Real.hasDerivAt_arctan x).sub
          (((h1.sub (h3.div_const 3)).add (h5.div_const 5)).sub
            (h7.div_const 7))
      rw [hd.deriv]
      have hx : (0 : ℝ) < 1 + x ^ 2 := by positivity
      have hEq : 1 / (1 + x ^ 2) -
          (1 - 3 * x ^ 2 / 3 + 5 * x ^ 4 / 5 - 7 * x ^ 6 / 7)
          = x ^ 8 / (1 + x ^ 2) := by
        field_simp
        ring
      rw [hEq]
      positivity
  have h0 := hmono ht
  simp only [Real.arctan_zero] at h0
  norm_num at h0
  linarith

/-- Exact quarter-angle decomposition of `arctan q` through the addition and
double-angle laws, at rational points. -/
theorem arctan_decomp (t d1 d2 q r : ℝ) (ht1 : -1 < t) (ht2 : t < 1)
    (hd1 : 2 * t / (1 - t ^ 2) = d1) (hd11 : -1 < d1) (hd12 : d1 < 1)
    (hd2 : 2 * d1 / (1 - d1 ^ 2) = d2) (hr : d2 * r < 1)
    (hq : (d2 + r) / (1 - d2 * r) = q) :
    Real.arctan q = 4 * Real.arctan t + Real.arctan r := by
  have h1 : 2 * Real.arctan t = Real.arctan d1 := by
    rw [Real.two_mul_arctan ht1 ht2, hd1]
  have h2 : 2 * Real.arctan d1 = Real.arctan d2 := by
    rw [Real.two_mul_arctan hd11 hd12, hd2]
  have h3 : Real.arctan d2 + Real.arctan r = Real.arctan q := by
    rw [Real.arctan_add hr, hq]
  calc Real.arctan q = Real.arctan d2 + Real.arctan r := h3.symm
    _ = 2 * (2 * Real.arctan t) + Real.arctan r := by rw [h1, h2]
    _ = 4 * Real.arctan t + Real.arctan r := by ring

/-- Two-sided Taylor bounds through a quarter-angle decomposition. -/
theorem arctan_bounds_of_decomp (t r q : ℝ) (ht : 0 ≤ t) (hr : 0 ≤ r)
    (hdecomp : Real.arctan q = 4 * Real.arctan t + Real.arctan r) :
    4 * (t - t ^ 3 / 3 + t ^ 5 / 5 - t ^ 7 / 7) +
      (r - r ^ 3 / 3 + r ^ 5 / 5 - r ^ 7 / 7) ≤ Real.arctan q ∧
    Real.arctan q ≤ 4 * (t - t ^ 3 / 3 + t ^ 5 / 5) +
      (r - r ^ 3 / 3 + r ^ 5 / 5) := by
  have l1 := taylor7_le_arctan t ht
  have l2 := arctan_le_taylor5 t ht
  have l3 := taylor7_le_arctan r hr
  have l4 := arctan_le_taylor5 r hr
  rw [hdecomp]
  constructor <;> linarith

/-- Conversion of an `arctan` enclosure to a degree-tolerance statement using
`3.141592 < π < 3.141593`. -/
theorem deg_bound (A lo hi target c : ℝ) (hc : 0 < c)
    (ht0 : 0 ≤ target - 1 / 1000)
    (hA1 : lo ≤ A) (hA2 : A ≤ hi)
    (h1 : (target - 1 / 1000) * 3.141593 ≤ c * lo)
    (h2 : c * hi ≤ (target + 1 / 1000) * 3.141592) :
    |c * A / Real.pi - target| ≤ 1 / 1000 := by
  have hπ1 : (3.141592 : ℝ) < Real.pi := Real.pi_gt_d6
  have hπ2 : Real.pi < 3.141593 := Real.pi_lt_d6
  have hπ0 : (0 : ℝ) < Real.pi := by linarith
  rw [abs_le]
  constructor
  · have hgoal : target - 1 / 1000 ≤ c * A / Real.pi := by
      rw [le_div_iff hπ0]
      have k1 : (target - 1 / 1000) * Real.pi ≤
          (target - 1 / 1000) * 3.141593 :=
        mul_le_mul_of_nonneg_left hπ2.le ht0
      have k2 : c * lo ≤ c * A := mul_le_mul_of_nonneg_left hA1 hc.le
      linarith
    linarith
  · have hgoal : c * A / Real.pi ≤ target + 1 / 1000 := by
      rw [div_le_iff hπ0]
      have k1 : (target + 1 / 1000) * 3.141592 ≤
          (target + 1 / 1000) * Real.pi :=
        mul_le_mul_of_nonneg_left hπ1.le (by linarith)
      have k2 : c * A ≤ c * hi := mul_le_mul_of_nonneg_left hA2 hc.le
      linarith
    linarith

/-- Numeric enclosure of `arctan(731/912)` (the vertical-FOV half-angle). -/
theorem arctan_xv_bounds :
    (675676217 / 1000000000 : ℝ) ≤ Real.arctan (731 / 912) ∧
    Real.arctan (731 / 912 : ℝ) ≤ 84459827 / 125000000 := by
  have hdec := arctan_decomp (10659 / 62500) (1332375000 / 3792635719)
      (10106426032205250000 / 12608862556409646961) (731 / 912)
      (17987364263928491 / 18887080080987635778432)
      (by norm_num) (by norm_num) (by norm_num) (by norm_num) (by norm_num)
      (by norm_num) (by norm_num) (by norm_num)
  have hb := arctan_bounds_of_decomp _ _ _ (by norm_num) (by norm_num) hdec
  exact ⟨le_trans (by norm_num) hb.1, le_trans hb.2 (by norm_num)⟩

/-- Numeric enclosure of `arctan(2795/3648)` (the nasal-FOV angle). -/
theorem arctan_xn_bounds :
    (653771849 / 1000000000 : ℝ) ≤ Real.arctan (2795 / 3648) ∧
    Real.arctan (2795 / 3648 : ℝ) ≤ 130754749 / 200000000 := by
  have hdec := arctan_decomp (82457 / 500000) (82457000000 / 243200843151)
      (40107223847404014000000 / 52347493260357303608801) (2795 / 3648)
      (91067368820514598795 / 303063346067277662694906048)
      (by norm_num) (by norm_num) (by norm_num) (by norm_num) (by norm_num)
      (by norm_num) (by norm_num) (by norm_num)
  have hb := arctan_bounds_of_decomp _ _ _ (by norm_num) (by norm_num) hdec
  exact ⟨le_trans (by norm_num) hb.1, le_trans hb.2 (by norm_num)⟩

/-- Numeric enclosure of `arctan(60157/91200)` (the temporal-FOV angle). -/
theorem arctan_xt_bounds :
    (29155281 / 50000000 : ℝ) ≤ Real.arctan (60157 / 91200) ∧
    Real.arctan (60157 / 91200 : ℝ) ≤ 291553231 / 500000000 := by
  have hdec := arctan_decomp (146817 / 1000000) (293634000000 / 978444768511)
      (574609302313917948000000 / 871133239070544377157121) (60157 / 91200)
      (393891737421239040927997 / 114014123202532009194565435200)
      (by norm_num) (by norm_num) (by norm_num) (by norm_num) (by norm_num)
      (by norm_num) (by norm_num) (by norm_num)
  have hb := arctan_bounds_of_decomp _ _ _ (by norm_num) (by norm_num) hdec
  exact ⟨le_trans (by norm_num) hb.1, le_trans hb.2 (by norm_num)⟩

/-! ## Claims -/

/-- C4: for `f > 0`, `d_o > 0`, `d_o ≠ f`, `imageDistance(f, d_o)` equals
`1 / (1/f - 1/d_o)` exactly (equivalently `f·d_o / (d_o - f)`), and
`magnification(d_i, d_o)` equals `-d_i / d_o` at the image distance. -/
theorem c4_thin_lens_formulas (f d : ℚ) (hf : 0 < f) (hd : 0 < d)
    (hdf : d ≠ f) :
    imageDistance f d = 1 / (1 / f - 1 / d) ∧
    imageDistance f d = f * d / (d - f) ∧
    magnification (imageDistance f d) d = -(imageDistance f d) / d := by
  refine ⟨rfl, imageDistance_closed_form f d hf.ne' hd.ne' hdf, rfl⟩

/-- C4 witness: the theorem at `f = 50`, `d_o = 100`. -/
theorem c4_witness :
    (0 : ℚ) < 50 ∧ (0 : ℚ) < 100 ∧ (100 : ℚ) ≠ 50 ∧
    (imageDistance 50 100 = 1 / (1 / 50 - 1 / 100) ∧
     imageDistance 50 100 = 50 * 100 / (100 - 50) ∧
     magnification (imageDistance 50 100) 100 = -(imageDistance 50 100) / 100) :=
  ⟨by norm_num, by norm_num, by norm_num,
    c4_thin_lens_formulas 50 100 (by norm_num) (by norm_num) (by norm_num)⟩

/-- C5: `calcHMDOptics` at the Cardboard-V2 defaults returns magnification
exactly 43 (within 1e-6) and the four documented field-of-view angles within
1e-3 of the test's reference values. -/
theorem c5_cardboard_v2_numbers :
    |(calcHMDOptics DEFAULT_HMD).magnification - 43| ≤ 1 / 1000000 ∧
    |(calcHMDOptics DEFAULT_HMD).fovVertical - 77.4268| ≤ 1 / 1000 ∧
    |(calcHMDOptics DEFAULT_HMD).fovHNasal - 37.4584| ≤ 1 / 1000 ∧
    |(calcHMDOptics DEFAULT_HMD).fovHTemporal - 33.4095| ≤ 1 / 1000 ∧
    |(calcHMDOptics DEFAULT_HMD).fovHorizontal - 70.8679| ≤ 1 / 1000 := by
  have hd2i : |1 / (1 / (0.043 : ℝ) - 1 / 0.042)| + 0.018 = 228 / 125 := by
    have h1 : (1 / (1 / (0.043 : ℝ) - 1 / 0.042)) = -(903 / 500) := by
      norm_num
    rw [h1, abs_neg, abs_of_pos (by norm_num : (0 : ℝ) < 903 / 500)]
    norm_num
  have hargV : (0.068 : ℝ) * (0.043 / (0.043 - 0.042)) / 2 / (228 / 125)
      = 731 / 912 := by norm_num
  have hargN : (0.043 : ℝ) / (0.043 - 0.042) * 0.065 / 2 / (228 / 125)
      = 2795 / 3648 := by norm_num
  have hargT : (0.043 : ℝ) / (0.043 - 0.042) * (0.12096 - 0.065) / 2 /
      (228 / 125) = 60157 / 91200 := by norm_num
  have hmag : (calcHMDOptics DEFAULT_HMD).magnification = 43 := by
    simp only [calcHMDOptics, DEFAULT_HMD]
    norm_num
  have hfovV : (calcHMDOptics DEFAULT_HMD).fovVertical
      = 360 * Real.arctan (731 / 912) / Real.pi := by
    simp only [calcHMDOptics, DEFAULT_HMD, radToDeg]
    rw [hd2i, hargV]
    ring
  have hfovN : (calcHMDOptics DEFAULT_HMD).fovHNasal
      = 180 * Real.arctan (2795 / 3648) / Real.pi := by
    simp only [calcHMDOptics, DEFAULT_HMD, radToDeg]
    rw [hd2i, hargN]
    ring
  have hfovT : (calcHMDOptics DEFAULT_HMD).fovHTemporal
      = 180 * Real.arctan (60157 / 91200) / Real.pi := by
    simp only [calcHMDOptics, DEFAULT_HMD, radToDeg]
    rw [hd2i, hargT]
    ring
  have hfovH : (calcHMDOptics DEFAULT_HMD).fovHorizontal
      = 180 * (Real.arctan (2795 / 3648) + Real.arctan (60157 / 91200)) /
        Real.pi := by
    simp only [calcHMDOptics, DEFAULT_HMD, radToDeg]
    rw [hd2i, hargN, hargT]
    ring
  refine ⟨?_, ?_, ?_, ?_, ?_⟩
  · rw [hmag]
    norm_num
  · rw [hfovV]
    exact deg_bound _ _ _ _ 360 (by norm_num) (by norm_num)
      arctan_xv_bounds.1 arctan_xv_bounds.2 (by norm_num) (by norm_num)
  · rw [hfovN]
    exact deg_bound _ _ _ _ 180 (by norm_num) (by norm_num)
      arctan_xn_bounds.1 arctan_xn_bounds.2 (by norm_num) (by norm_num)
  · rw [hfovT]
    exact deg_bound _ _ _ _ 180 (by norm_num) (by norm_num)
      arctan_xt_bounds.1 arctan_xt_bounds.2 (by norm_num) (by norm_num)
  · rw [hfovH]
    exact deg_bound (Real.arctan (2795 / 3648) + Real.arctan (60157 / 91200))
      (653771849 / 1000000000 + 29155281 / 50000000)
      (130754749 / 200000000 + 291553231 / 500000000) 70.8679 180
      (by norm_num) (by norm_num)
      (by linarith [arctan_xn_bounds.1, arctan_xt_bounds.1])
      (by linarith [arctan_xn_bounds.2, arctan_xt_bounds.2])
      (by norm_num) (by norm_num)

/-- C2: over the slider domain (`f ∈ [10, 200]`, `d_o ∈ [5, 500]`, the only
inputs the panel can receive), outside the near-infinity band the panel
classifies the image as real iff `d_o > f` and virtual iff `d_o < f`; inside
the band the image type is `'infinity'` and the regime readout is
`"At focal point"`. -/
theorem c2_regime_classification (f d : ℚ) (hf1 : 10 ≤ f) (hf2 : f ≤ 200)
    (hd1 : 5 ≤ d) (hd2 : d ≤ 500) :
    (nearInfinityThreshold f ≤ |d - f| →
      ((imgType f d = ImageType.real ↔ f < d) ∧
       (imgType f d = ImageType.virtual ↔ d < f))) ∧
    (|d - f| < nearInfinityThreshold f →
      imgType f d = ImageType.infinity ∧ regimeText f d = "At focal point") := by
  constructor
  · intro hout
    have hni : nearInfinity f d = false := by
      rw [nearInfinity, decide_eq_false_iff_not]
      exact not_lt.mpr hout
    have hthr3 : (3 : ℚ) ≤ nearInfinityThreshold f := le_max_left _ _
    have habs : (3 : ℚ) ≤ |d - f| := le_trans hthr3 hout
    have hdf : d ≠ f := by
      intro hEq
      rw [hEq, sub_self, abs_zero] at habs
      linarith
    have hIm : imgType f d = imageType (imageDistance f d) := by
      simp [imgType, hni, diRaw]
    have hclosed := imageDistance_closed_form f d (by linarith) (by linarith) hdf
    have hfd_pos : 0 < f * d := mul_pos (by linarith) (by linarith)
    have hbound : ¬(|imageDistance f d| > 1000000) := by
      rw [hclosed, abs_div, abs_of_pos hfd_pos]
      have h1 : f * d ≤ 100000 := by nlinarith
      have h2 : f * d / |d - f| ≤ 100000 / 3 :=
        div_le_div₀ (by norm_num) h1 (by norm_num) habs
      exact not_lt.mpr (le_trans h2 (by norm_num))
    rcases lt_or_gt_of_ne hdf with hlt | hgt
    · have hdi_neg : imageDistance f d < 0 := by
        rw [hclosed]
        exact div_neg_of_pos_of_neg hfd_pos (sub_neg.mpr hlt)
      have hty : imageType (imageDistance f d) = ImageType.virtual := by
        rw [imageType, if_neg hbound, if_neg (not_lt.mpr hdi_neg.le)]
      rw [hIm, hty]
      exact ⟨iff_of_false ImageType.virtual_ne_real hlt.asymm,
        iff_of_true rfl hlt⟩
    · have hdi_pos : 0 < imageDistance f d := by
        rw [hclosed]
        exact div_pos hfd_pos (sub_pos.mpr hgt)
      have hty : imageType (imageDistance f d) = ImageType.real := by
        rw [imageType, if_neg hbound, if_pos hdi_pos]
      rw [hIm, hty]
      exact ⟨iff_of_true rfl hgt,
        iff_of_false ImageType.real_ne_virtual hgt.asymm⟩
  · intro hin
    have hni : nearInfinity f d = true := by
      rw [nearInfinity, decide_eq_true_eq]
      exact hin
    have h1 : imgType f d = ImageType.infinity := by simp [imgType, hni]
    exact ⟨h1, by simp [regimeText, h1]⟩

/-- C1: over the slider domain the viewport computed by the thin-lens panel
contains the display anchor `(-d_o, 0)` with its 40-unit margin, the eye
anchor `(eyeWorldX, 0)` with its 40-unit margin, and both focal points
`(-f, 0)`, `(f, 0)` with their 10-unit margins; the y-range covers
`[-80, 80] ⊇ {0}`; and the bounds are well-ordered (finite) rationals for
every pair, including `d_o` arbitrarily close to or equal to `f`.  The bounds
function `viewportBounds` takes only `(f, d_o, width, height)`: the image
distance is not an input of the computation. -/
theorem c1_viewport_invariant (f d w h : ℚ) (hf1 : 10 ≤ f) (hf2 : f ≤ 200)
    (hd1 : 5 ≤ d) (hd2 : d ≤ 500) (hw : 0 < w) (hh : 0 < h) :
    (viewportBounds f d w h).xMin ≤ -d - 40 ∧
    (viewportBounds f d w h).xMin ≤ -f - 10 ∧
    eyeWorldX f d + 40 ≤ (viewportBounds f d w h).xMax ∧
    f + 10 ≤ (viewportBounds f d w h).xMax ∧
    (viewportBounds f d w h).yMin ≤ -80 ∧
    80 ≤ (viewportBounds f d w h).yMax ∧
    (viewportBounds f d w h).xMin < (viewportBounds f d w h).xMax ∧
    (viewportBounds f d w h).yMin < (viewportBounds f d w h).yMax := by
  have ha : effectiveMinX f d ≤ -d - 40 := min_le_left _ _
  have hb : effectiveMinX f d ≤ -f - 10 := min_le_right _ _
  have hc : eyeWorldX f d + 40 ≤ effectiveMaxX f d :=
    le_trans (le_max_left _ _) (le_max_left _ _)
  have hd' : f + 10 ≤ effectiveMaxX f d := le_max_right _ _
  have hw0 : 0 < worldW0 f d := by
    rw [worldW0]
    have h20 : (20 : ℚ) ≤ effectiveMaxX f d := le_trans (by linarith) hd'
    have hm45 : effectiveMinX f d ≤ -45 := le_trans ha (by linarith)
    linarith
  have hsy : 80 ≤ sceneHalfY f d :=
    le_trans (le_max_right _ _)
      (le_trans (le_max_right _ _) (le_max_right _ _))
  have hh0 : 0 < worldH0 f d := by rw [worldH0]; linarith
  -- padding only expands
  have h1a : worldMinX1 f d ≤ effectiveMinX f d := by
    rw [worldMinX1]
    nlinarith
  have h1b : effectiveMaxX f d ≤ worldMaxX1 f d := by
    rw [worldMaxX1]
    nlinarith
  have h1c : worldMinY1 f d ≤ -sceneHalfY f d := by
    rw [worldMinY1]
    nlinarith
  have h1d : sceneHalfY f d ≤ worldMaxY1 f d := by
    rw [worldMaxY1]
    nlinarith
  -- the minimum-size step only expands
  have h2a : worldMinX2 f d ≤ worldMinX1 f d := by
    rw [worldMinX2]
    split_ifs with hcw
    · linarith
    · linarith
  have h2b : worldMaxX1 f d ≤ worldMaxX2 f d := by
    rw [worldMaxX2]
    split_ifs with hcw
    · linarith
    · linarith
  have h2c : worldMinY2 f d ≤ worldMinY1 f d := by
    rw [worldMinY2]
    split_ifs with hch
    · linarith
    · linarith
  have h2d : worldMaxY1 f d ≤ worldMaxY2 f d := by
    rw [worldMaxY2]
    split_ifs with hch
    · linarith
    · linarith
  -- widths after the minimum-size step are positive
  have hcw_pos : 0 < currentW f d := by
    rw [currentW, worldMaxX1, worldMinX1]
    nlinarith
  have hch_pos : 0 < currentH f d := by
    rw [currentH, worldMaxY1, worldMinY1]
    nlinarith
  have hW2 : 0 < worldMaxX2 f d - worldMinX2 f d := by
    rw [worldMaxX2, worldMinX2]
    split_ifs with hcw
    · rw [currentW] at hcw ⊢
      linarith
    · rw [currentW] at hcw_pos
      linarith
  have hH2 : 0 < worldMaxY2 f d - worldMinY2 f d := by
    rw [worldMaxY2, worldMinY2]
    split_ifs with hch
    · rw [currentH] at hch ⊢
      linarith
    · rw [currentH] at hch_pos
      linarith
  have hca : 0 < w / h := div_pos hw hh
  -- the aspect-ratio step only expands
  have h3 : (viewportBounds f d w h).xMin ≤ worldMinX2 f d ∧
      worldMaxX2 f d ≤ (viewportBounds f d w h).xMax ∧
      (viewportBounds f d w h).yMin ≤ worldMinY2 f d ∧
      worldMaxY2 f d ≤ (viewportBounds f d w h).yMax := by
    rw [viewportBounds]
    split_ifs with hcond
    · have hY : worldMaxY2 f d - worldMinY2 f d <
          (worldMaxX2 f d - worldMinX2 f d) / (w / h) := by
        rw [lt_div_iff hca]
        calc (worldMaxY2 f d - worldMinY2 f d) * (w / h)
            < (worldMaxY2 f d - worldMinY2 f d) *
              ((worldMaxX2 f d - worldMinX2 f d) /
                (worldMaxY2 f d - worldMinY2 f d)) := by
              exact mul_lt_mul_of_pos_left hcond hH2
          _ = worldMaxX2 f d - worldMinX2 f d := by
              field_simp
      refine ⟨le_refl _, le_refl _, ?_, ?_⟩ <;> dsimp only <;> linarith
    · have hX : worldMaxX2 f d - worldMinX2 f d ≤
          (worldMaxY2 f d - worldMinY2 f d) * (w / h) := by
        have hle := not_lt.mp hcond
        calc worldMaxX2 f d - worldMinX2 f d
            = (worldMaxX2 f d - worldMinX2 f d) /
                (worldMaxY2 f d - worldMinY2 f d) *
                (worldMaxY2 f d - worldMinY2 f d) := by
              field_simp
          _ ≤ (w / h) * (worldMaxY2 f d - worldMinY2 f d) :=
              mul_le_mul_of_nonneg_right hle hH2.le
          _ = (worldMaxY2 f d - worldMinY2 f d) * (w / h) := mul_comm _ _
      refine ⟨?_, ?_, le_refl _, le_refl _⟩ <;> dsimp only <;> linarith
  obtain ⟨h3a, h3b, h3c, h3d⟩ := h3
  refine ⟨?_, ?_, ?_, ?_, ?_, ?_, ?_, ?_⟩
  · linarith
  · linarith
  · linarith
  · linarith
  · linarith
  · linarith
  · have : effectiveMinX f d < effectiveMaxX f d := by
      have h20 : (20 : ℚ) ≤ effectiveMaxX f d := le_trans (by linarith) hd'
      have hm45 : effectiveMinX f d ≤ -45 := le_trans ha (by linarith)
      linarith
    linarith
  · linarith

/-- C1 witness: the theorem at `f = 40`, `d_o = 100` on a 16:9 canvas. -/
theorem c1_witness :
    ((10 : ℚ) ≤ 40 ∧ (40 : ℚ) ≤ 200 ∧ (5 : ℚ) ≤ 100 ∧ (100 : ℚ) ≤ 500 ∧
     (0 : ℚ) < 16 ∧ (0 : ℚ) < 9) ∧
    ((viewportBounds 40 100 16 9).xMin ≤ -100 - 40 ∧
     (viewportBounds 40 100 16 9).xMin ≤ -40 - 10 ∧
     eyeWorldX 40 100 + 40 ≤ (viewportBounds 40 100 16 9).xMax ∧
     (40 : ℚ) + 10 ≤ (viewportBounds 40 100 16 9).xMax ∧
     (viewportBounds 40 100 16 9).yMin ≤ -80 ∧
     80 ≤ (viewportBounds 40 100 16 9).yMax ∧
     (viewportBounds 40 100 16 9).xMin < (viewportBounds 40 100 16 9).xMax ∧
     (viewportBounds 40 100 16 9).yMin < (viewportBounds 40 100 16 9).yMax) :=
  ⟨⟨by norm_num, by norm_num, by norm_num, by norm_num, by norm_num,
    by norm_num⟩,
   c1_viewport_invariant 40 100 16 9 (by norm_num) (by norm_num) (by norm_num)
     (by norm_num) (by norm_num) (by norm_num)⟩

/-- C2 witness: the theorem at `f = 50`, `d_o = 100` (projector side, outside
the band) — the panel classifies the image as real. -/
theorem c2_witness :
    ((10 : ℚ) ≤ 50 ∧ (50 : ℚ) ≤ 200 ∧ (5 : ℚ) ≤ 100 ∧ (100 : ℚ) ≤ 500 ∧
     nearInfinityThreshold 50 ≤ |(100 : ℚ) - 50|) ∧
    ((imgType 50 100 = ImageType.real ↔ (50 : ℚ) < 100) ∧
     (imgType 50 100 = ImageType.virtual ↔ (100 : ℚ) < 50)) :=
  ⟨⟨by norm_num, by norm_num, by norm_num, by norm_num,
    by norm_num [nearInfinityThreshold, max_def, abs_eq_max_neg]⟩,
   (c2_regime_classification 50 100 (by norm_num) (by norm_num) (by norm_num)
      (by norm_num)).1
     (by norm_num [nearInfinityThreshold, max_def, abs_eq_max_neg])⟩

/-- C9: the closed-form HMD magnification `f / (f - d_o)` (the function
`hmdMagnification`, and the same expression computed independently inside
`calcHMDOptics`) equals the composed thin-lens value
`magnification(imageDistance(f, d_o), d_o)` under exact arithmetic. -/
theorem c9_magnification_agreement (f d : ℚ) (er ipd dw dh : ℝ)
    (hf : f ≠ 0) (hd : d ≠ 0) (hdf : d ≠ f) :
    hmdMagnification f d = magnification (imageDistance f d) d ∧
    (calcHMDOptics ⟨(f : ℝ), (d : ℝ), er, ipd, dw, dh⟩).magnification
      = ((hmdMagnification f d : ℚ) : ℝ) := by
  constructor
  · rw [imageDistance_closed_form f d hf hd hdf, hmdMagnification,
      magnification]
    have hsub : d - f ≠ 0 := sub_ne_zero.mpr hdf
    have hsub' : f - d ≠ 0 := sub_ne_zero.mpr (Ne.symm hdf)
    field_simp
    ring
  · show (f : ℝ) / ((f : ℝ) - (d : ℝ)) = ((hmdMagnification f d : ℚ) : ℝ)
    rw [hmdMagnification]
    push_cast
    rfl

/-- C9 witness: the theorem at `f = 43`, `d_o = 42` (and the Cardboard-V2
remaining physical parameters). -/
theorem c9_witness :
    (43 : ℚ) ≠ 0 ∧ (42 : ℚ) ≠ 0 ∧ (42 : ℚ) ≠ 43 ∧
    (hmdMagnification 43 42 = magnification (imageDistance 43 42) 42 ∧
     (calcHMDOptics ⟨((43 : ℚ) : ℝ), ((42 : ℚ) : ℝ), 0.018, 0.065, 0.12096,
        0.068⟩).magnification = ((hmdMagnification 43 42 : ℚ) : ℝ)) :=
  ⟨by norm_num, by norm_num, by norm_num,
    c9_magnification_agreement 43 42 0.018 0.065 0.12096 0.068
      (by norm_num) (by norm_num) (by norm_num)⟩

/-- C8: for `f > 0`, `d_o > 0` the lens half-height equals the maximum
absolute ray lens-plane intercept plus a 12-unit margin clamped to
`[40, 80]`, and in particular always lies in `[40, 80]`. -/
theorem c8_lens_half_height (f d : ℚ) (hf : 0 < f) (hd : 0 < d) :
    lensHalfHeight f d = min (max (maxRayY f d + 12) 40) 80 ∧
    40 ≤ lensHalfHeight f d ∧ lensHalfHeight f d ≤ 80 := by
  refine ⟨rfl, ?_, min_le_right _ _⟩
  exact le_min (le_max_right _ _) (by norm_num)

/-- C8 witness: the theorem at `f = 50`, `d_o = 100` (where the half-height
evaluates to 52). -/
theorem c8_witness :
    (0 : ℚ) < 50 ∧ (0 : ℚ) < 100 ∧
    (lensHalfHeight 50 100 = min (max (maxRayY 50 100 + 12) 40) 80 ∧
     40 ≤ lensHalfHeight 50 100 ∧ lensHalfHeight 50 100 ≤ 80) ∧
    lensHalfHeight 50 100 = 52 :=
  ⟨by norm_num, by norm_num,
    c8_lens_half_height 50 100 (by norm_num) (by norm_num),
    by norm_num [lensHalfHeight, maxRayY, rayYsAtLens, ray3YAtLens, imgType,
      nearInfinity, nearInfinityThreshold, diRaw, imageDistance, imageType,
      objectHeight, maxYAtLens, abs_eq_max_neg, max_def, min_def,
      ImageType.real_ne_infinity, ImageType.virtual_ne_infinity,
      ImageType.real_ne_virtual, ImageType.infinity_ne_real,
      ImageType.infinity_ne_virtual, ImageType.virtual_ne_real]⟩

/-- C3: at `f = 100`, `d_o = 110` — outside the near-infinity band — the
source still clamps the focal-ray lens-plane intercept to `±5·objectHeight`:
the drawn intercept is `-200` although the unclamped value
`-objectHeight·f/(d_o - f)` is `-400`, contradicting the claim (and the
source's own comments) that the clamp applies only inside the band. -/
theorem c3_clamp_fires_outside_band :
    nearInfinity 100 110 = false ∧
    ray3YAtLens 100 110 = -200 ∧
    -objectHeight * 100 / (110 - 100) = -400 ∧
    ray3YAtLens 100 110 ≠ -objectHeight * 100 / (110 - 100) := by
  norm_num [nearInfinity, nearInfinityThreshold, ray3YAtLens, imgType, diRaw,
    imageDistance, imageType, objectHeight, maxYAtLens, abs_eq_max_neg,
    max_def, min_def, ImageType.real_ne_infinity,
    ImageType.infinity_ne_real]

/-- C6: two label requests in the same frame with identical anchor `(x, y)`
and identical size `w × h`: the first keeps its anchor, the second is
displaced to `(x, y - h - 2)` (a non-zero offset, the first free candidate
shift), its stored box does not overlap the first one, and a displacement
record (the leader line from the original anchor to the final position) is
pushed; moreover, whenever every candidate shift collides with previously
placed boxes, `place` returns the original unshifted position. -/
theorem c6_label_collision_avoidance (x y w h : ℚ) (hw : 0 < w) (hh : 0 < h)
    (st : PlacerState) (x2 y2 w2 h2 : ℚ)
    (hall : ∀ s ∈ shiftList w2 h2,
      (st.placed.any fun p =>
        rectsOverlap (x2 - w2 / 2 + s.1) (y2 - h2 / 2 + s.2) w2 h2 p) = true) :
    (place PlacerState.empty x y w h).2 = (x, y) ∧
    (place (place PlacerState.empty x y w h).1 x y w h).2 = (x, y - h - 2) ∧
    ((x, y - h - 2) : ℚ × ℚ) ≠ (x, y) ∧
    (place (place PlacerState.empty x y w h).1 x y w h).1.placed =
      [⟨x - w / 2, y - h / 2, w, h⟩,
       ⟨x - w / 2, y - h / 2 + (-h - 2), w, h⟩] ∧
    rectsOverlap (x - w / 2) (y - h / 2 + (-h - 2)) w h
      ⟨x - w / 2, y - h / 2, w, h⟩ = false ∧
    (place (place PlacerState.empty x y w h).1 x y w h).1.displacements =
      [⟨x, y, x, y - h - 2⟩] ∧
    (place st x2 y2 w2 h2).2 = (x2, y2) := by
  have hfind1 : (shiftList w h).find? (fun s =>
      !(PlacerState.empty.placed.any fun p =>
        rectsOverlap (x - w / 2 + s.1) (y - h / 2 + s.2) w h p))
      = some (0, 0) := by
    rw [shiftList]
    exact List.find?_cons_of_pos _ (by simp [PlacerState.empty])
  have hdec1 : (decide ((0 : ℚ) ≠ 0 ∨ (0 : ℚ) ≠ 0)) = false := by simp
  have e1 : place PlacerState.empty x y w h =
      (⟨PlacerState.empty.placed ++ [⟨x - w / 2 + 0, y - h / 2 + 0, w, h⟩],
        PlacerState.empty.displacements⟩,
       x - w / 2 + 0 + w / 2, y - h / 2 + 0 + h / 2) := by
    rw [place]
    dsimp only
    rw [hfind1]
    dsimp only
    rw [hdec1]
    rfl
  have hs1 : (place PlacerState.empty x y w h).1 =
      (⟨[⟨x - w / 2, y - h / 2, w, h⟩], []⟩ : PlacerState) := by
    rw [e1]
    simp [PlacerState.empty]
  have hOv1 : rectsOverlap (x - w / 2 + 0) (y - h / 2 + 0) w h
      ⟨x - w / 2, y - h / 2, w, h⟩ = true := by
    rw [rectsOverlap, decide_eq_true_eq]
    refine ⟨by linarith, by linarith, by linarith, by linarith⟩
  have hOv2 : rectsOverlap (x - w / 2 + 0) (y - h / 2 + (-h - 2)) w h
      ⟨x - w / 2, y - h / 2, w, h⟩ = false := by
    rw [rectsOverlap, decide_eq_false_iff_not]
    rintro ⟨-, -, -, h4⟩
    linarith
  have hfind2 : (shiftList w h).find? (fun s =>
      !(([⟨x - w / 2, y - h / 2, w, h⟩] : List LabelRect).any fun p =>
        rectsOverlap (x - w / 2 + s.1) (y - h / 2 + s.2) w h p))
      = some (0, -h - 2) := by
    simp only [shiftList, List.find?, List.any_cons, List.any_nil,
      Bool.or_false, hOv1, hOv2, Bool.not_true, Bool.not_false]
  have hdec2 : (decide ((0 : ℚ) ≠ 0 ∨ -h - 2 ≠ 0)) = true := by
    rw [decide_eq_true_eq]
    right
    intro hEq
    linarith
  have e2 : place (⟨[⟨x - w / 2, y - h / 2, w, h⟩], []⟩ : PlacerState) x y w h =
      (⟨[⟨x - w / 2, y - h / 2, w, h⟩] ++
          [⟨x - w / 2 + 0, y - h / 2 + (-h - 2), w, h⟩],
        ([] : List Displacement) ++
          [⟨x, y, x - w / 2 + 0 + w / 2, y - h / 2 + (-h - 2) + h / 2⟩]⟩,
       x - w / 2 + 0 + w / 2, y - h / 2 + (-h - 2) + h / 2) := by
    rw [place]
    dsimp only
    rw [hfind2]
    dsimp only
    rw [hdec2]
    rfl
  have hb2 : (⟨x - w / 2 + 0, y - h / 2 + (-h - 2), w, h⟩ : LabelRect) =
      ⟨x - w / 2, y - h / 2 + (-h - 2), w, h⟩ := by
    rw [add_zero]
  have hdsp : (⟨x, y, x - w / 2 + 0 + w / 2,
      y - h / 2 + (-h - 2) + h / 2⟩ : Displacement) =
      ⟨x, y, x, y - h - 2⟩ := by
    congr 1 <;> ring
  refine ⟨?_, ?_, ?_, ?_, ?_, ?_, ?_⟩
  · rw [e1]
    dsimp only
    exact Prod.ext_iff.mpr ⟨by ring, by ring⟩
  · rw [hs1, e2]
    dsimp only
    exact Prod.ext_iff.mpr ⟨by ring, by ring⟩
  · intro hEq
    have h2 := congrArg Prod.snd hEq
    dsimp only at h2
    linarith
  · rw [hs1, e2]
    dsimp only
    rw [hb2]
    simp
  · rw [rectsOverlap, decide_eq_false_iff_not]
    rintro ⟨-, -, -, h4⟩
    linarith
  · rw [hs1, e2]
    dsimp only
    rw [hdsp]
    simp
  · have hnone : (shiftList w2 h2).find? (fun s =>
        !(st.placed.any fun p =>
          rectsOverlap (x2 - w2 / 2 + s.1) (y2 - h2 / 2 + s.2) w2 h2 p))
        = none := by
      rw [List.find?_eq_none]
      intro s hs
      simp [hall s hs]
    rw [place]
    dsimp only
    rw [hnone]
    dsimp only
    exact Prod.ext_iff.mpr ⟨by ring, by ring⟩


/-- C6 witness: the theorem at anchor `(100, 50)` with a `60 × 20` box, and a
fallback scenario where one huge previously placed box collides with every
candidate shift of a `10 × 10` label at the origin. -/
theorem c6_witness :
    ((place PlacerState.empty 100 50 60 20).2 = (100, 50) ∧
     (place (place PlacerState.empty 100 50 60 20).1 100 50 60 20).2
        = (100, 50 - 20 - 2) ∧
     ((100, 50 - 20 - 2) : ℚ × ℚ) ≠ (100, 50) ∧
     (place (place PlacerState.empty 100 50 60 20).1 100 50 60 20).1.placed =
       [⟨100 - 60 / 2, 50 - 20 / 2, 60, 20⟩,
        ⟨100 - 60 / 2, 50 - 20 / 2 + (-20 - 2), 60, 20⟩] ∧
     rectsOverlap (100 - 60 / 2) (50 - 20 / 2 + (-20 - 2)) 60 20
       ⟨100 - 60 / 2, 50 - 20 / 2, 60, 20⟩ = false ∧
     (place (place PlacerState.empty 100 50 60 20).1 100 50 60 20).1.displacements
        = [⟨100, 50, 100, 50 - 20 - 2⟩] ∧
     (place (⟨[⟨-1000, -1000, 2000, 2000⟩], []⟩ : PlacerState) 0 0 10 10).2
        = (0, 0)) :=
  c6_label_collision_avoidance 100 50 60 20 (by norm_num) (by norm_num)
    ⟨[⟨-1000, -1000, 2000, 2000⟩], []⟩ 0 0 10 10
    (by
      intro s hs
      fin_cases hs <;>
        norm_num [rectsOverlap])

/-- C7: when the image is virtual and its distance is below `xMin`, the frame
draws exactly the left-edge glow, purple, with a label carrying the absolute
image distance in millimetres; when the image is real and beyond `xMax`,
exactly the right-edge glow, green, with the distance label; and in the
at-focal-point regime no edge glow is drawn on any side. -/
theorem c7_edge_glow (f d w h : ℚ) :
    (imgType f d = ImageType.virtual →
      diRaw f d < (viewportBounds f d w h).xMin →
      glowCmds f d w h = [⟨Edge.left, virtualGlowColor, some |diRaw f d|⟩]) ∧
    (imgType f d = ImageType.real →
      (viewportBounds f d w h).xMax < diRaw f d →
      glowCmds f d w h = [⟨Edge.right, realGlowColor, some (diRaw f d)⟩]) ∧
    (imgType f d = ImageType.infinity → glowCmds f d w h = []) := by
  refine ⟨?_, ?_, ?_⟩
  · intro hv hlt
    have hne : imgType f d ≠ ImageType.infinity := fun hEq =>
      ImageType.virtual_ne_infinity (hv.symm.trans hEq)
    have hL : imageOffScreenLeft f d w h = true := by
      rw [imageOffScreenLeft, decide_eq_true_eq]
      exact ⟨hv, hlt⟩
    have hR : imageOffScreenRight f d w h = false := by
      rw [imageOffScreenRight, decide_eq_false_iff_not]
      rintro ⟨hr, _⟩
      exact ImageType.virtual_ne_real (hv.symm.trans hr)
    have hoff : imageOffScreen f d w h = true := by
      rw [imageOffScreen, hL]
      rfl
    have hT : imageOffScreenTop f d w h = false := by
      rw [imageOffScreenTop, hoff]
      simp
    have hB : imageOffScreenBottom f d w h = false := by
      rw [imageOffScreenBottom, hoff]
      simp
    simp [glowCmds, hne, hL, hR, hT, hB]
  · intro hr hgt
    have hne : imgType f d ≠ ImageType.infinity := fun hEq =>
      ImageType.real_ne_infinity (hr.symm.trans hEq)
    have hL : imageOffScreenLeft f d w h = false := by
      rw [imageOffScreenLeft, decide_eq_false_iff_not]
      rintro ⟨hv, _⟩
      exact ImageType.real_ne_virtual (hr.symm.trans hv)
    have hR : imageOffScreenRight f d w h = true := by
      rw [imageOffScreenRight, decide_eq_true_eq]
      exact ⟨hr, hgt⟩
    have hoff : imageOffScreen f d w h = true := by
      rw [imageOffScreen, hL, hR]
      rfl
    have hT : imageOffScreenTop f d w h = false := by
      rw [imageOffScreenTop, hoff]
      simp
    have hB : imageOffScreenBottom f d w h = false := by
      rw [imageOffScreenBottom, hoff]
      simp
    simp [glowCmds, hne, hL, hR, hT, hB]
  · intro hinf
    rw [glowCmds, if_neg]
    simp [hinf]

/-- C7 witness: the theorem at `f = 200, d_o = 190` (virtual image at
`-3800` mm, far left of the viewport), at `f = 50, d_o = 55` (real image at
`550` mm, right of the viewport), and at `f = 50, d_o = 50` (at focal
point). -/
theorem c7_witness :
    glowCmds 200 190 1 1 = [⟨Edge.left, virtualGlowColor, some |diRaw 200 190|⟩] ∧
    glowCmds 50 55 1 1 = [⟨Edge.right, realGlowColor, some (diRaw 50 55)⟩] ∧
    glowCmds 50 50 1 1 = [] := by
  refine ⟨(c7_edge_glow 200 190 1 1).1 ?_ ?_,
    (c7_edge_glow 50 55 1 1).2.1 ?_ ?_, (c7_edge_glow 50 50 1 1).2.2 ?_⟩
  · norm_num [imgType, nearInfinity, nearInfinityThreshold, diRaw,
      imageDistance, imageType, abs_eq_max_neg, max_def, min_def,
      ImageType.virtual_ne_infinity, ImageType.infinity_ne_virtual]
  · norm_num [viewportBounds, worldMinX2, worldMaxX2, worldMinY2,
      worldMaxY2, currentW, currentH, worldMinX1, worldMaxX1, worldMinY1,
      worldMaxY1, worldW0, worldH0, effectiveMinX, effectiveMaxX, anchorMinX,
      anchorMaxX, eyeWorldX, sceneHalfY, lensHalfHeight, maxRayY, rayYsAtLens,
      ray3YAtLens, imgType, nearInfinity, nearInfinityThreshold, diRaw,
      imageDistance, imageType, objectHeight, displayHalfH, maxYAtLens,
      abs_eq_max_neg, max_def, min_def, ImageType.real_ne_infinity,
      ImageType.virtual_ne_infinity, ImageType.real_ne_virtual,
      ImageType.infinity_ne_real, ImageType.infinity_ne_virtual,
      ImageType.virtual_ne_real]
  · norm_num [imgType, nearInfinity, nearInfinityThreshold, diRaw,
      imageDistance, imageType, abs_eq_max_neg, max_def, min_def,
      ImageType.real_ne_infinity, ImageType.infinity_ne_real]
  · norm_num [viewportBounds, worldMinX2, worldMaxX2, worldMinY2,
      worldMaxY2, currentW, currentH, worldMinX1, worldMaxX1, worldMinY1,
      worldMaxY1, worldW0, worldH0, effectiveMinX, effectiveMaxX, anchorMinX,
      anchorMaxX, eyeWorldX, sceneHalfY, lensHalfHeight, maxRayY, rayYsAtLens,
      ray3YAtLens, imgType, nearInfinity, nearInfinityThreshold, diRaw,
      imageDistance, imageType, objectHeight, displayHalfH, maxYAtLens,
      abs_eq_max_neg, max_def, min_def, ImageType.real_ne_infinity,
      ImageType.virtual_ne_infinity, ImageType.real_ne_virtual,
      ImageType.infinity_ne_real, ImageType.infinity_ne_virtual,
      ImageType.virtual_ne_real]
  · norm_num [imgType, nearInfinity, nearInfinityThreshold, diRaw,
      imageDistance, imageType, abs_eq_max_neg, max_def, min_def]

/-- C10: the left and right edge-glow conditions never hold together, and the
top/bottom conditions can only hold when neither horizontal condition
fired. -/
theorem c10_glow_exclusivity (f d w h : ℚ) :
    ¬(imageOffScreenLeft f d w h = true ∧ imageOffScreenRight f d w h = true) ∧
    (imageOffScreenTop f d w h = true →
      imageOffScreenLeft f d w h = false ∧
      imageOffScreenRight f d w h = false) ∧
    (imageOffScreenBottom f d w h = true →
      imageOffScreenLeft f d w h = false ∧
      imageOffScreenRight f d w h = false) := by
  refine ⟨?_, ?_, ?_⟩
  · rintro ⟨hl, hr⟩
    rw [imageOffScreenLeft, decide_eq_true_eq] at hl
    rw [imageOffScreenRight, decide_eq_true_eq] at hr
    rw [hl.1] at hr
    exact absurd hr.1 (by simp)
  · intro ht
    have hoff : imageOffScreen f d w h = false := by
      by_contra hne
      have h1 : imageOffScreen f d w h = true := by
        revert hne; cases imageOffScreen f d w h <;> simp
      rw [imageOffScreenTop, h1] at ht
      simp at ht
    constructor
    · by_contra hne
      have h1 : imageOffScreenLeft f d w h = true := by
        revert hne; cases imageOffScreenLeft f d w h <;> simp
      rw [imageOffScreen, h1] at hoff
      simp at hoff
    · by_contra hne
      have h1 : imageOffScreenRight f d w h = true := by
        revert hne; cases imageOffScreenRight f d w h <;> simp
      rw [imageOffScreen, h1] at hoff
      simp at hoff
  · intro hb
    have hoff : imageOffScreen f d w h = false := by
      by_contra hne
      have h1 : imageOffScreen f d w h = true := by
        revert hne; cases imageOffScreen f d w h <;> simp
      rw [imageOffScreenBottom, h1] at hb
      simp at hb
    constructor
    · by_contra hne
      have h1 : imageOffScreenLeft f d w h = true := by
        revert hne; cases imageOffScreenLeft f d w h <;> simp
      rw [imageOffScreen, h1] at hoff
      simp at hoff
    · by_contra hne
      have h1 : imageOffScreenRight f d w h = true := by
        revert hne; cases imageOffScreenRight f d w h <;> simp
      rw [imageOffScreen, h1] at hoff
      simp at hoff

/-- C10 witness: at `f = 13`, `d_o = 10` on a square canvas the top condition
fires and, by the theorem, both horizontal conditions are off. -/
theorem c10_witness :
    imageOffScreenTop 13 10 1 1 = true ∧
    imageOffScreenLeft 13 10 1 1 = false ∧
    imageOffScreenRight 13 10 1 1 = false := by
  have htop : imageOffScreenTop 13 10 1 1 = true := by
    norm_num [imageOffScreenTop, imageOffScreen, imageOffScreenLeft,
      imageOffScreenRight, viewportBounds, worldMinX2, worldMaxX2, worldMinY2,
      worldMaxY2, currentW, currentH, worldMinX1, worldMaxX1, worldMinY1,
      worldMaxY1, worldW0, worldH0, effectiveMinX, effectiveMaxX, anchorMinX,
      anchorMaxX, eyeWorldX, sceneHalfY, lensHalfHeight, maxRayY, rayYsAtLens,
      ray3YAtLens, imgType, nearInfinity, nearInfinityThreshold, diRaw,
      imageDistance, imageType, mag, magnification, drawMag, drawImageHeight,
      imageTipY, objectHeight, displayHalfH, maxYAtLens, maxDrawMag,
      abs_eq_max_neg, max_def, min_def,
      ImageType.real_ne_infinity, ImageType.virtual_ne_infinity,
      ImageType.real_ne_virtual, ImageType.infinity_ne_real,
      ImageType.infinity_ne_virtual, ImageType.virtual_ne_real]
  exact ⟨htop, (c10_glow_exclusivity 13 10 1 1).2.1 htop⟩

end Optics
